import Mathlib

/-!
Verification development for the scatter-plot core of `qis/plots/scatter.py`
(repository `dev-protocol/QuantInvestStrats`).

The Python module is shallowly embedded:
* dataframes become `DataFrame` (a column-name list plus rows of `PyVal`s);
* the rendering library is observed through an explicit `Effect` trace;
* the regression library (`statsmodels` OLS) and the textual summary of a
  fitted model (`qis.utils.reg_model_params_to_str`, not part of the sampled
  sources) are black-box delegates, passed in as a `StatsDelegates` record,
  mirroring the specification's decision to treat them as external
  collaborators;
* the real-valued confidence-interval helper `calc_ci` is embedded over `ℝ`,
  with the t-distribution quantile `scipy.stats.t.ppf` as a delegate function;
* Python exceptions become an explicit `PyError` sum.
-/

namespace Qis

/-- A Python scalar stored in a dataframe cell: a number, a string, or a
missing value (`NaN`/`None`). -/
inductive PyVal : Type
  | num (q : ℚ)
  | str (s : String)
  | nan
deriving DecidableEq, Repr

/-- Numeric view of a cell (used where the source feeds cells to numeric
routines; non-numeric cells never reach those paths in the modelled runs). -/
def PyVal.toQ : PyVal → ℚ
  | .num q => q
  | .str _ => 0
  | .nan => 0

/-- A pandas dataframe: named columns and rows of cells (row-major). -/
structure DataFrame where
  cols : List String
  rows : List (List PyVal)
deriving DecidableEq, Repr

/-- Index of a column name (pandas column lookup). -/
def DataFrame.colIdx (df : DataFrame) (c : String) : ℕ := df.cols.indexOf c

/-- The values of column `c`, one per row (`df[c]`). -/
def DataFrame.col (df : DataFrame) (c : String) : List PyVal :=
  df.rows.map (fun r => r.getD (df.colIdx c) PyVal.nan)

/-- `df.dropna()`: drop every row containing a missing value (line 58 of the
source composes it with `copy()`; the copy is modelled explicitly in the
heap-based frame model below). -/
def DataFrame.dropna (df : DataFrame) : DataFrame :=
  ⟨df.cols, df.rows.filter (fun r => r.all (fun v => v != PyVal.nan))⟩

/-- Stable insertion of a row into a key-sorted row list. -/
def insertSorted (key : List PyVal → ℚ) (r : List PyVal) :
    List (List PyVal) → List (List PyVal)
  | [] => [r]
  | s :: rest => if key r ≤ key s then r :: s :: rest else s :: insertSorted key r rest

/-- Sort rows by a numeric key (models `DataFrame.sort_values`). -/
def sortRows (key : List PyVal → ℚ) (rows : List (List PyVal)) : List (List PyVal) :=
  rows.foldr (insertSorted key) []

/-- `df.sort_values(by=c)`. -/
def DataFrame.sortValuesBy (df : DataFrame) (c : String) : DataFrame :=
  ⟨df.cols, sortRows (fun r => (r.getD (df.colIdx c) PyVal.nan).toQ) df.rows⟩

/-- `pd.melt(df, id_vars=[xcol], value_vars=df.columns.drop(xcol),
var_name=hueName, value_name=valueName)` (line 71): reshape to long form, one
block of rows per value column, blocks in column order. -/
def melt (df : DataFrame) (xcol hueName valueName : String) : DataFrame :=
  let vcols := df.cols.filter (fun c => c != xcol)
  ⟨[xcol, hueName, valueName],
   vcols.flatMap (fun c =>
     df.rows.map (fun r =>
       [r.getD (df.colIdx xcol) PyVal.nan, PyVal.str c, r.getD (df.colIdx c) PyVal.nan]))⟩

/-- `pandas.Series.unique`: the distinct values of a list in first-occurrence
order (`df[hue].unique()`, lines 85, 88 and 157). -/
def uniqueFirst {α : Type} [DecidableEq α] : List α → List α
  | [] => []
  | a :: l => a :: (uniqueFirst l).filter (fun b => b != a)

end Qis

namespace Qis

/-! ## The regression delegate and the design matrix -/

/-- The black-box fitted model returned by `sm.OLS(y, x1).fit()`; the
specification treats the fitting routine as an external collaborator exposing
a `predict` function. -/
structure RegModel where
  predict : List (List ℚ) → List ℚ

instance : Inhabited RegModel := ⟨⟨fun _ => []⟩⟩

/-- External statistical collaborators of the plotting core:
`olsFit` models `sm.OLS(y, x1).fit()` (black box per the specification) and
`regParamsStr` models `qis.utils.reg_model_params_to_str` (its source is not
under `src/`; per the specification it renders "a text summary of the
regression (coefficients and, optionally, R² only)"; its arguments are the
fitted model, the order, the r2-only flag and the intercept flag). -/
structure StatsDelegates where
  olsFit : List (List ℚ) → List ℚ → RegModel
  regParamsStr : RegModel → ℕ → Bool → Bool → String

/-- Modelled from the spec: `qis.utils.get_ols_x` is not under `src/`; the
specification describes it as building "a polynomial design matrix of the
configured order (optionally including an intercept column)" — "powers of x,
plus optional intercept column". One row per observation. -/
def get_ols_x (x : List ℚ) (order : ℕ) (fitIntercept : Bool) : List (List ℚ) :=
  x.map (fun xi =>
    (if fitIntercept then [(1 : ℚ)] else []) ++ (List.range order).map (fun k => xi ^ (k + 1)))

/-- Number of regression coefficients implied by the order and intercept flag
(the row width of `get_ols_x`). -/
def numCoeffs (order : ℕ) (fitIntercept : Bool) : ℕ :=
  order + (if fitIntercept then 1 else 0)

/-- Modelled from the spec: `qis.plots.get_n_colors` is not under `src/`; the
specification only requires one group-specific color per distinct group
value, so the model generates `n` distinct color names. -/
def getNColors (n : ℕ) : List String :=
  (List.range n).map (fun i => "color" ++ toString i)

end Qis

namespace Qis

/-! ## Errors, effects, legend entries, arguments -/

/-- Python exceptions observable from the embedded code. `valueError` is the
built-in `ValueError` raised by the source (lines 64, 266, 271); `indexError`
is the built-in `IndexError` raised by `palette[idx]` (line 99) when fewer
colors than groups are supplied. `ambiguousColumns` and `insufficientData`
are modelled from the spec: the dedicated error classes the design document
posits (`AmbiguousColumnsError`, `InsufficientDataError`); they are included
so claims about them are statable — no statement of the source raises them. -/
inductive PyError : Type
  | valueError (msg : String)
  | indexError
  | ambiguousColumns
  | insufficientData
deriving DecidableEq, Repr

/-- A legend entry's text, tagged by how the source built it:
`fullSample` is the pooled-model label (line 149, a configurable label
followed by the regression-parameter text), `hueParams` a group label with
regression-parameter text (lines 163-164), `huePlain` a bare group value
(lines 166, 169). -/
inductive LegendLabel : Type
  | fullSample (lbl : String) (paramsText : String)
  | hueParams (hueId : PyVal) (paramsText : String)
  | huePlain (hueId : PyVal)
deriving DecidableEq, Repr

/-- The group value a legend entry names, if it is a group entry. -/
def LegendLabel.hueIdOf : LegendLabel → Option PyVal
  | .fullSample _ _ => none
  | .hueParams h _ => some h
  | .huePlain h => some h

/-- Whether a legend entry embeds regression-parameter text (the output of
the `reg_model_params_to_str` delegate). -/
def LegendLabel.hasRegParams : LegendLabel → Bool
  | .fullSample _ _ => true
  | .hueParams _ _ => true
  | .huePlain _ => false

/-- Whether a legend entry is a group entry carrying regression-parameter
text (built at lines 163-164 of the source). -/
def LegendLabel.isHueParams : LegendLabel → Bool
  | .hueParams _ _ => true
  | _ => false

/-- Rendering-library calls made by the source, in program order. Pure axis
formatting (limits, ticks, axis labels, spines, title) and the optional 45°
reference line are out-of-scope collaborator calls per the specification and
are not traced; the legend call is traced because the claims inspect it. -/
inductive Effect : Type
  | createFigure (figId : ℕ)
  | scatterHue (hueId : PyVal) (color : String) (size : ℚ)
  | regplotHue (hueId : PyVal) (order : ℕ) (color : String)
  | plotHueCurve (hueId : PyVal) (color : String) (pred : List ℚ)
  | scatterFull (color : String) (size : ℚ)
  | regplotFull (order : ℕ) (color : String)
  | olsFit (hueId : Option PyVal) (nobs : ℕ) (ncoeffs : ℕ)
  | plotFullPrediction (color : String) (pred : List ℚ)
  | plotCiBound (isUpper : Bool)
  | annotate (label : String) (x y : PyVal) (color : String)
  | annotPoint (x y : PyVal) (color : String) (size : ℚ)
  | setLegend (labels : List LegendLabel) (colors : List String)
deriving DecidableEq, Repr

/-- A per-group regression curve drawn in the hue loop (line 103 or 112). -/
def Effect.isHueCurve : Effect → Bool
  | .regplotHue _ _ _ => true
  | .plotHueCurve _ _ _ => true
  | _ => false

/-- A text annotation that is actually visible: `ax.annotate` is called for
every row, but an empty string renders no visible text. -/
def Effect.isVisibleText : Effect → Bool
  | .annotate l _ _ _ => l != ""
  | _ => false

/-- The enlarged re-draw of an annotated point (line 191). -/
def Effect.isAnnotPoint : Effect → Bool
  | .annotPoint _ _ _ _ => true
  | _ => false

/-- The result of a completed `plot_scatter` call: the returned figure
(`some` id when the call created it, `none` when drawing on a caller axes)
and the parallel label/color sequences handed to the legend renderer. -/
structure ScatterOut where
  fig : Option ℕ
  legendLabels : List LegendLabel
  legendColors : List String
deriving DecidableEq, Repr

/-- The keyword arguments of `plot_scatter` that carry behaviour modelled
here, with the source's defaults. Pure formatting parameters (`xvar_format`,
`fontsize`, `linewidth`, axis limits, tick labels, `legend_loc`, `xlabel`,
`ylabel`, `title`, `add_45line`) are consumed by out-of-scope rendering
collaborators and are omitted. -/
structure ScatterArgs where
  x_column : Option String := none
  y_column : Option String := none
  hue : Option String := none
  annotation_labels : Option (List String) := none
  annotation_colors : Option (List String) := none
  annotation_color : Option String := some "red"
  add_universe_model_label : Bool := true
  add_universe_model_prediction : Bool := false
  add_universe_model_ci : Bool := false
  add_hue_model_label : Option Bool := none
  ci : Option ℤ := none
  order : ℕ := 2
  full_sample_order : Option ℕ := some 2
  fit_intercept : Bool := true
  color0 : String := "darkblue"
  colors : Option (List String) := none
  markersize : ℚ := 4
  full_sample_label : String := "Full sample: "
  r2_only : Bool := false
  value_name : String := "value_name"
  ax : Option ℕ := none

/-! ## Column resolution (source lines 60-72) -/

/-- Resolution of the x column (lines 60-64): an explicit name wins; with a
2-column table, or a 3-column table and a hue, the first column is taken
positionally; otherwise a `ValueError` is raised. -/
def resolveXColumn (df : DataFrame) (xColumnArg : Option String) (hue : Option String) :
    Except PyError String :=
  match xColumnArg with
  | some c => .ok c
  | none =>
    if df.cols.length = 2 ∨ (df.cols.length = 3 ∧ hue.isSome) then .ok (df.cols.getD 0 "")
    else .error (.valueError "x_column is not defined for more than on columns")

/-- Resolution of the y column (lines 65-72): an explicit name wins; with a
2-column table, or a 3-column table and a hue, the second column is taken
positionally; otherwise the frame is melted to long form with a synthetic
`hue` column, and the hue is overridden to it. Returns the resolved y column,
the effective hue and the (possibly melted) frame. -/
def resolveYColumn (df : DataFrame) (yColumnArg : Option String) (hue : Option String)
    (xcol valueName : String) : String × Option String × DataFrame :=
  match yColumnArg with
  | some c => (c, hue, df)
  | none =>
    if df.cols.length = 2 ∨ (df.cols.length = 3 ∧ hue.isSome) then (df.cols.getD 1 "", hue, df)
    else (valueName, some "hue", melt df xcol "hue" valueName)

/-! ## The hue loop (source lines 88-112) -/

/-- One pass over the distinct hue values with a running index: per group,
select and x-sort its rows, build the design matrix, fit (the fit happens for
every order, line 95), scatter the group's points with `palette[idx]` (an
`IndexError` when the palette is shorter than the group list), and for
`order > 0` draw either a `regplot` curve (when `ci` was supplied) or the
model's predicted curve. Returns the trace and the per-group fitted models. -/
def hueLoop (D : StatsDelegates) (df : DataFrame) (xcol ycol : String) (a : ScatterArgs)
    (colorsL : List String) (h : String) :
    List PyVal → ℕ → List Effect × Except PyError (List (PyVal × RegModel))
  | [], _ => ([], .ok [])
  | hid :: rest, idx =>
    let dataHue := DataFrame.sortValuesBy
      ⟨df.cols, df.rows.filter (fun r => r.getD (df.colIdx h) PyVal.nan == hid)⟩ xcol
    let x := (dataHue.col xcol).map PyVal.toQ
    let y := (dataHue.col ycol).map PyVal.toQ
    let x1 := get_ols_x x a.order a.fit_intercept
    let reg := D.olsFit x1 y
    let fitEff := Effect.olsFit (some hid) x.length (numCoeffs a.order a.fit_intercept)
    if hidx : idx < colorsL.length then
      let c := colorsL.get ⟨idx, hidx⟩
      let curveEffs : List Effect :=
        if 0 < a.order then
          if a.ci.isSome then [Effect.regplotHue hid a.order c]
          else [Effect.plotHueCurve hid c (reg.predict x1)]
        else []
      match hueLoop D df xcol ycol a colorsL h rest (idx + 1) with
      | (tr, .ok models) =>
        (fitEff :: Effect.scatterHue hid c a.markersize :: (curveEffs ++ tr),
         .ok ((hid, reg) :: models))
      | (tr, .error e) =>
        (fitEff :: Effect.scatterHue hid c a.markersize :: (curveEffs ++ tr),
         .error e)
    else
      ([fitEff], .error .indexError)

/-! ## Full-sample rendering and the pooled model (source lines 114-152) -/

/-- The no-hue rendering branch (lines 115-124): nothing for a `None` full
sample order, a bare scatter for order 0, a `regplot` otherwise. -/
def fullScatterEffects (a : ScatterArgs) : List Effect :=
  match a.full_sample_order with
  | none => []
  | some 0 => [Effect.scatterFull a.color0 a.markersize]
  | some fso => [Effect.regplotFull fso a.color0]

/-- The rendering calls of the pooled-sample section (lines 137-146): the
fit itself, then the optional dashed prediction, then the optional
lower/upper confidence bounds (plotted in that order). -/
def uniEffects (nobs k : ℕ) (c : String) (pr : List ℚ) (showPred showCi : Bool) :
    List Effect :=
  Effect.olsFit none nobs k ::
    ((if showPred then [Effect.plotFullPrediction c pr] else [])
     ++ (if showCi then [Effect.plotCiBound false, Effect.plotCiBound true] else []))

/-- The pooled-sample section (lines 129-152), which runs whether or not a
hue is present: when a positive full-sample order and at least one
`add_universe_*` flag are set, sort by x, fit the pooled model, optionally
draw its dashed prediction and its confidence band, and optionally append the
"full sample" legend entry (whose text embeds the regression parameters,
line 150, with `r2_only` hardcoded to false). Returns trace, legend labels
and legend colors contributed by this section. -/
def universeSection (D : StatsDelegates) (df : DataFrame) (xcol ycol : String)
    (a : ScatterArgs) : List Effect × List LegendLabel × List String :=
  match a.full_sample_order with
  | none => ([], [], [])
  | some fso =>
    if (a.add_universe_model_prediction ∨ a.add_universe_model_label
        ∨ a.add_universe_model_ci) ∧ 0 < fso then
      let xy := df.sortValuesBy xcol
      let x := (xy.col xcol).map PyVal.toQ
      let y := (xy.col ycol).map PyVal.toQ
      let x1 := get_ols_x x fso a.fit_intercept
      let reg := D.olsFit x1 y
      let effs := uniEffects x.length (numCoeffs fso a.fit_intercept) a.color0
        (reg.predict x1) a.add_universe_model_prediction a.add_universe_model_ci
      if a.add_universe_model_label then
        (effs, [LegendLabel.fullSample a.full_sample_label
                  (D.regParamsStr reg fso false a.fit_intercept)], [a.color0])
      else (effs, [], [])
    else ([], [], [])

/-! ## Group legend entries and the internal color column (lines 155-170) -/

/-- `df['color'] = color0` (line 155): append the internal color column. The
input frames of the modelled runs do not already carry a `color` column. -/
def addColorColumn (df : DataFrame) (c : String) : DataFrame :=
  ⟨df.cols ++ ["color"], df.rows.map (fun r => r ++ [PyVal.str c])⟩

/-- `df.loc[df[hue] == hue_id, 'color'] = 'red'` (line 159): overwrite the
color cell of every row of one group. -/
def writeColorForHue (df : DataFrame) (h : String) (hid : PyVal) (c : String) : DataFrame :=
  ⟨df.cols, df.rows.map (fun r =>
    if r.getD (df.colIdx h) PyVal.nan == hid then r.set (df.colIdx "color") (PyVal.str c)
    else r)⟩

/-- The legend-accumulation loop over `zip(colors, hue_ids)` (lines 158-170):
for each pair append one label — with regression-parameter text when
`order > 0` and the hue-model label is requested, a bare group value
otherwise — and the paired color. (The `elif` at line 172 is unreachable:
its guard repeats `hue is not None`, already consumed by the `if`.) -/
def hueLegend (D : StatsDelegates) (a : ScatterArgs) (addHueLbl : Bool)
    (models : List (PyVal × RegModel)) :
    List (String × PyVal) → List LegendLabel × List String
  | [] => ([], [])
  | (c, hid) :: ps =>
    let rest := hueLegend D a addHueLbl models ps
    let lbl := if 0 < a.order then
        if addHueLbl then
          LegendLabel.hueParams hid
            (D.regParamsStr ((models.lookup hid).getD default) a.order a.r2_only a.fit_intercept)
        else LegendLabel.huePlain hid
      else LegendLabel.huePlain hid
    (lbl :: rest.1, c :: rest.2)

/-! ## Point annotations (source lines 177-191) -/

/-- The effects produced for one zipped row: `ax.annotate` is called for
every row (line 185), and the point is re-drawn at the hardcoded size 20
only when the label is non-empty (lines 190-191). -/
def annotRow (label : String) (x y : PyVal) (c : String) : List Effect :=
  Effect.annotate label x y c ::
    (if label ≠ "" then [Effect.annotPoint x y c 20] else [])

/-- `zip` of four parallel sequences, truncating at the shortest. -/
def zip4 {α β γ δ : Type} (as : List α) (bs : List β) (cs : List γ) (ds : List δ) :
    List (α × β × γ × δ) := as.zip (bs.zip (cs.zip ds))

/-- The annotation loop body (line 184). -/
def annotEffects (labels : List String) (xs ys : List PyVal) (colorsA : List String) :
    List Effect :=
  (zip4 labels xs ys colorsA).flatMap (fun p => annotRow p.1 p.2.1 p.2.2.1 p.2.2.2)

/-- The annotation section (lines 177-191): resolve the per-row colors
(explicit list, else a constant color, else the internal color column) and
run the loop. -/
def annotSection (df : DataFrame) (xcol ycol : String) (a : ScatterArgs) : List Effect :=
  match a.annotation_labels with
  | none => []
  | some lbls =>
    let colorsA := match a.annotation_colors with
      | some cs => cs
      | none => match a.annotation_color with
        | some c => List.replicate df.rows.length c
        | none => (df.col "color").map (fun v => match v with | PyVal.str s => s | _ => "")
    annotEffects lbls (df.col xcol) (df.col ycol) colorsA

/-! ## The plotting core -/

/-- The effective hue-model-label flag (lines 74-75): an explicit argument
wins; otherwise it is switched on exactly when a hue is present. -/
def resolveAddHueLbl (arg : Option Bool) (hue : Option String) : Bool :=
  match arg with
  | some b => b
  | none => hue.isSome

/-- The palette (lines 84-86): the caller's colors if given, else one
generated color per distinct group value. -/
def resolveColors (colorsArg : Option (List String)) (n : ℕ) : List String :=
  match colorsArg with
  | some cs => cs
  | none => getNColors n

/-- Figure-creation effects (line 77-80): a fresh figure when no axes is
supplied, nothing otherwise. -/
def figEffects : Option ℕ → List Effect
  | none => [Effect.createFigure 0]
  | some _ => []

/-- The `fig` local of lines 77-80: the freshly created figure when no axes
is supplied, `None` otherwise (returned at line 240). -/
def figValue : Option ℕ → Option ℕ
  | none => some 0
  | some _ => none

/-- The embedding of `plot_scatter` (lines 19-240): the value-level pipeline
with its observable rendering trace. Returns the effect trace and either the
raised error or the completed result. -/
def plot_scatter (D : StatsDelegates) (df0 : DataFrame) (a : ScatterArgs) :
    List Effect × Except PyError ScatterOut :=
  let df1 := df0.dropna
  match resolveXColumn df1 a.x_column a.hue with
  | .error e => ([], .error e)
  | .ok xcol =>
    let r := resolveYColumn df1 a.y_column a.hue xcol a.value_name
    let ycol := r.1
    let hue := r.2.1
    let df := r.2.2
    let addHueLbl := resolveAddHueLbl a.add_hue_model_label hue
    let figEffs : List Effect := figEffects a.ax
    let fig : Option ℕ := figValue a.ax
    match hue with
    | some h =>
      let hueIds := uniqueFirst (df.col h)
      let colorsL := resolveColors a.colors hueIds.length
      match hueLoop D df xcol ycol a colorsL h hueIds 0 with
      | (tr, .error e) => (figEffs ++ tr, .error e)
      | (tr, .ok models) =>
        let uni := universeSection D df xcol ycol a
        let dfc := (colorsL.zip hueIds).foldl (fun d p => writeColorForHue d h p.2 "red")
          (addColorColumn df a.color0)
        let hl := hueLegend D a addHueLbl models (colorsL.zip hueIds)
        let legendLabels := uni.2.1 ++ hl.1
        let legendColors := uni.2.2 ++ hl.2
        let annEffs := annotSection dfc xcol ycol a
        (figEffs ++ tr ++ uni.1 ++ annEffs ++ [Effect.setLegend legendLabels legendColors],
         .ok ⟨fig, legendLabels, legendColors⟩)
    | none =>
      let fsEffs := fullScatterEffects a
      let uni := universeSection D df xcol ycol a
      let dfc := addColorColumn df a.color0
      let annEffs := annotSection dfc xcol ycol a
      (figEffs ++ fsEffs ++ uni.1 ++ annEffs ++ [Effect.setLegend uni.2.1 uni.2.2],
       .ok ⟨fig, uni.2.1, uni.2.2⟩)

end Qis

namespace Qis

/-! ## The bucketed-classification wrapper (source lines 243-290) -/

/-- Index of the bucket a value falls in, given ascending bin edges. -/
def bucketOf (binEdges : List ℚ) (v : ℚ) : ℕ := (binEdges.filter (fun b => b ≤ v)).length

/-- Ascending insertion of a rational into a sorted list. -/
def insertRat (q : ℚ) : List ℚ → List ℚ
  | [] => [q]
  | a :: t => if q ≤ a then q :: a :: t else a :: insertRat q t

/-- Sort a list of rationals ascending. -/
def ratSort (l : List ℚ) : List ℚ := l.foldr insertRat []

/-- Equal-frequency quantile cut points of a sample, `k` buckets. -/
def quantileEdges (vals : List ℚ) (k : ℕ) : List ℚ :=
  let s := ratSort vals
  (List.range (k - 1)).map (fun i => s.getD ((i + 1) * s.length / k) 0)

/-- Modelled from the spec: `qis.utils.add_quantile_classification` is not
under `src/`. Per the specification's bucketed-classification variant it
derives a categorical group column from the x column by quantile binning:
explicit bin edges are used directly when given; otherwise `num_buckets`
equal-frequency quantile cut points are computed from the data. One bucket
label per row is appended as the new hue column. -/
def add_quantile_classification (df : DataFrame) (xcol hueName : String)
    (numBuckets : Option ℕ) (bins : List ℚ) : DataFrame :=
  let xs := (df.col xcol).map PyVal.toQ
  let edges := match numBuckets with
    | some k => quantileEdges xs k
    | none => bins
  ⟨df.cols ++ [hueName],
   (df.rows.zip xs).map (fun p =>
     p.1 ++ [PyVal.str ("bucket" ++ toString (bucketOf edges p.2))])⟩

/-- The keyword arguments of `plot_classification_scatter`, with the source's
defaults (lines 243-257). -/
structure ClassScatterArgs where
  x_column : Option String := none
  y_column : Option String := none
  hue_name : String := "hue"
  num_buckets : Option ℕ := none
  bins : List ℚ := [-3, -3/2, 0, 3/2, 3]
  order : ℕ := 1
  full_sample_order : Option ℕ := some 3
  markersize : ℚ := 10
  fit_intercept : Bool := false
  ax : Option ℕ := none

/-- The embedding of `plot_classification_scatter` (lines 243-290): resolve
x/y from a 2-column table (else raise the source's `ValueError`s), derive the
bucket column, and delegate to `plot_scatter`, forwarding its returned
figure unchanged. -/
def plot_classification_scatter (D : StatsDelegates) (df0 : DataFrame)
    (ca : ClassScatterArgs) : List Effect × Except PyError ScatterOut :=
  match (match ca.x_column with
         | some c => Except.ok c
         | none =>
           if df0.cols.length = 2 then Except.ok (df0.cols.getD 0 "")
           else Except.error
             (PyError.valueError "x_column is not defined for more than on columns")) with
  | .error e => ([], .error e)
  | .ok xcol =>
    match (match ca.y_column with
           | some c => Except.ok c
           | none =>
             if df0.cols.length = 2 then Except.ok (df0.cols.getD 1 "")
             else Except.error
               (PyError.valueError "y_column is not defined for more than on columns")) with
    | .error e => ([], .error e)
    | .ok ycol =>
      let df := add_quantile_classification df0 xcol ca.hue_name ca.num_buckets ca.bins
      plot_scatter D df { x_column := some xcol, y_column := some ycol,
                          hue := some ca.hue_name,
                          fit_intercept := ca.fit_intercept, order := ca.order,
                          full_sample_order := ca.full_sample_order,
                          markersize := ca.markersize,
                          add_universe_model_ci := false,
                          add_hue_model_label := some true,
                          ax := ca.ax }

/-! ## Run projections -/

instance {ε α : Type} [DecidableEq ε] [DecidableEq α] : DecidableEq (Except ε α) := fun x y =>
  match x, y with
  | .ok a, .ok b =>
    if h : a = b then isTrue (by rw [h]) else isFalse (by intro hc; cases hc; exact h rfl)
  | .error a, .error b =>
    if h : a = b then isTrue (by rw [h]) else isFalse (by intro hc; cases hc; exact h rfl)
  | .ok _, .error _ => isFalse (by intro hc; cases hc)
  | .error _, .ok _ => isFalse (by intro hc; cases hc)

/-- The figure of a completed run: `none` when the run raised, otherwise the
returned figure value. -/
def runFig (r : List Effect × Except PyError ScatterOut) : Option (Option ℕ) :=
  match r.2 with
  | .ok o => some o.fig
  | .error _ => none

/-- The legend labels of a completed run (empty when the run raised). -/
def runLabels (r : List Effect × Except PyError ScatterOut) : List LegendLabel :=
  match r.2 with
  | .ok o => o.legendLabels
  | .error _ => []

/-! ## Alias-aware model of the frame statements (for the copy-at-entry
invariant) -/

/-- A heap of dataframe objects; a Python variable holding a frame is an
index into it. -/
abbrev Heap := List DataFrame

/-- Dereference (a missing index yields an empty frame; never exercised by
the theorems, which bound the indices). -/
def readRef (h : Heap) (r : ℕ) : DataFrame := h.getD r ⟨[], []⟩

/-- Allocate a fresh frame object, returning the new heap and its index. -/
def allocRef (h : Heap) (d : DataFrame) : Heap × ℕ := (h ++ [d], h.length)

/-- In-place mutation of the frame object at an index. -/
def writeRef (h : Heap) (r : ℕ) (d : DataFrame) : Heap := h.set r d

/-- The dataframe statements of `plot_scatter` with explicit alias
semantics: `df = df.copy().dropna()` (line 58) allocates a copy and then the
fresh `dropna` result and rebinds the local name; the melt (line 71)
allocates and rebinds again; `df['color'] = color0` (line 155) and the
`df.loc[...] = 'red'` writes (line 159) mutate the object the local name
points to, in place. Returns the final heap and the local name's index. -/
def plotScatterFrameOps (h0 : Heap) (dfRef : ℕ) (a : ScatterArgs) : Heap × ℕ :=
  let al1 := allocRef h0 (readRef h0 dfRef)
  let al2 := allocRef al1.1 ((readRef al1.1 al1.2).dropna)
  let h2 := al2.1
  let rCur := al2.2
  match resolveXColumn (readRef h2 rCur) a.x_column a.hue with
  | .error _ => (h2, rCur)
  | .ok xcol =>
    let wide := a.y_column.isNone
      ∧ ¬((readRef h2 rCur).cols.length = 2
          ∨ ((readRef h2 rCur).cols.length = 3 ∧ a.hue.isSome))
    let al3 := if wide
      then allocRef h2 (melt (readRef h2 rCur) xcol "hue" a.value_name)
      else (h2, rCur)
    let h3 := al3.1
    let rCur2 := al3.2
    let hue2 : Option String := if wide then some "hue" else a.hue
    let h4 := writeRef h3 rCur2 (addColorColumn (readRef h3 rCur2) a.color0)
    let h5 := match hue2 with
      | some hcol =>
        let dcur := readRef h4 rCur2
        let hueIds := uniqueFirst (dcur.col hcol)
        let colorsL := resolveColors a.colors hueIds.length
        writeRef h4 rCur2
          ((colorsL.zip hueIds).foldl (fun d p => writeColorForHue d hcol p.2 "red") dcur)
      | none => h4
    (h5, rCur2)

/-! ## The confidence-interval helper (source lines 293-307), over `ℝ` -/

/-- The embedding of `calc_ci`: `tppf` is the delegate for
`scipy.stats.t.ppf` (quantile of the t-distribution, black-box statistics
collaborator per the specification). Mirrors the source statement by
statement: `m = 2`, `dof = n - m` unconditionally (the function receives no
polynomial order), `t = tppf(0.95, dof)`, `resid = y - y_model`,
`s_err = sqrt(sum(resid^2)/dof)`, and pointwise
`t * s_err * sqrt(1/n + (x_i - mean x)^2 / sum_j (x_j - mean x)^2)`. -/
noncomputable def calc_ci (tppf : ℝ → ℤ → ℝ) (x y y_model : List ℝ) : List ℝ :=
  let n := x.length
  let m : ℤ := 2
  let dof : ℤ := (n : ℤ) - m
  let t := tppf 0.95 dof
  let resid := List.zipWith (fun a b => a - b) y y_model
  let s_err := Real.sqrt ((resid.map (fun r => r ^ 2)).sum / (dof : ℝ))
  let xbar := x.sum / (n : ℝ)
  let sxx := (x.map (fun xi => (xi - xbar) ^ 2)).sum
  x.map (fun xi => t * s_err * Real.sqrt (1 / (n : ℝ) + (xi - xbar) ^ 2 / sxx))

/-- The claim's formula, written from the specification's words (section 4.2
of the spec): t-quantile at 0.95 with `dof = n - 2`, standard error
`sqrt(sum((y_i - y_model_i)^2) / dof)`, and pointwise half-width
`t * s_err * sqrt(1/n + (x_i - mean(x))^2 / sum_j (x_j - mean(x))^2)`.
Stated as a second definition to compare `calc_ci` against. -/
noncomputable def calc_ci_specFormula (tppf : ℝ → ℤ → ℝ) (x y y_model : List ℝ)
    (n : ℕ) : List ℝ :=
  x.map (fun xi =>
    tppf 0.95 ((n : ℤ) - 2)
      * Real.sqrt ((List.zipWith (fun a b => (a - b) ^ 2) y y_model).sum
          / (((n : ℤ) - 2 : ℤ) : ℝ))
      * Real.sqrt (1 / (n : ℝ)
          + (xi - x.sum / (n : ℝ)) ^ 2
            / ((x.map (fun xj => (xj - x.sum / (n : ℝ)) ^ 2)).sum)))

/-- The lower band drawn at line 145: `y_model - ci`, pointwise. -/
noncomputable def ciLowerBand (yModel ci : List ℝ) : List ℝ :=
  List.zipWith (fun a b => a - b) yModel ci

/-- The upper band drawn at line 146: `y_model + ci`, pointwise. -/
noncomputable def ciUpperBand (yModel ci : List ℝ) : List ℝ :=
  List.zipWith (fun a b => a + b) yModel ci

end Qis

namespace Qis

/-! ## Concrete fixtures for witnesses and counterexamples -/

/-- Concrete statistical delegates: a fit whose prediction is identically
zero and a fixed-shape parameter summary (any delegate would do; the claims
do not constrain the delegates' values). -/
def Dtest : StatsDelegates :=
  { olsFit := fun _ _ => { predict := fun m => m.map (fun _ => 0) },
    regParamsStr := fun _ o _ _ => "y=b0+b1*x, order=" ++ toString o }

/-- A 2-column table with one row. -/
def dfPair : DataFrame := ⟨["x", "y"], [[PyVal.num 1, PyVal.num 2]]⟩

/-- A 3-column grouped table, groups "a" and "b" in that encounter order. -/
def dfGrouped : DataFrame :=
  ⟨["x", "y", "g"],
   [[PyVal.num 1, PyVal.num 2, PyVal.str "a"],
    [PyVal.num 2, PyVal.num 3, PyVal.str "b"]]⟩

/-- A 5-column table (ambiguous without explicit x/y and group). -/
def dfWide5 : DataFrame :=
  ⟨["a", "b", "c", "d", "e"],
   [[PyVal.num 1, PyVal.num 2, PyVal.num 3, PyVal.num 4, PyVal.num 5]]⟩

/-- A 3-column table whose group column comes first. -/
def dfG3 : DataFrame :=
  ⟨["g", "a", "b"], [[PyVal.str "u", PyVal.num 1, PyVal.num 2]]⟩

/-- A grouped table whose single group has one row. -/
def dfOneRowGroup : DataFrame :=
  ⟨["x", "y", "g"], [[PyVal.num 1, PyVal.num 2, PyVal.str "g1"]]⟩

/-- Arguments for a grouped render with per-group order 0 and the source's
remaining defaults (`full_sample_order = 2`, pooled label on). -/
def argsOrderZero : ScatterArgs := { hue := some "g", order := 0, colors := some ["c0", "c1"] }

/-- Arguments for an order-2 grouped fit with the pooled section disabled. -/
def argsUndersized : ScatterArgs :=
  { hue := some "g", colors := some ["c0"], order := 2, full_sample_order := none }

/-- Arguments with one annotation label and a base markersize of 30. -/
def argsAnnot : ScatterArgs :=
  { annotation_labels := some ["pt"], markersize := 30, full_sample_order := some 0 }

end Qis

namespace Qis

/-! ## General lemmas about the embedded operations -/

theorem mem_uniqueFirst {α : Type} [DecidableEq α] (l : List α) (x : α) :
    x ∈ uniqueFirst l ↔ x ∈ l := by
  induction l with
  | nil => simp [uniqueFirst]
  | cons a t ih =>
    simp only [uniqueFirst, List.mem_cons, List.mem_filter, bne_iff_ne, ne_eq, ih]
    by_cases hx : x = a <;> simp [hx]

theorem uniqueFirst_nodup {α : Type} [DecidableEq α] (l : List α) :
    (uniqueFirst l).Nodup := by
  induction l with
  | nil => simp [uniqueFirst]
  | cons a t ih =>
    refine List.Nodup.cons ?_ (ih.filter _)
    simp [List.mem_filter]

theorem uniqueFirst_pairwise_indexOf {α : Type} [DecidableEq α] (l : List α) :
    (uniqueFirst l).Pairwise (fun u w => l.indexOf u < l.indexOf w) := by
  induction l with
  | nil => simp [uniqueFirst]
  | cons a t ih =>
    refine List.Pairwise.cons ?_ ?_
    · intro b hb
      simp only [List.mem_filter, bne_iff_ne, ne_eq] at hb
      rw [List.indexOf_cons_self, List.indexOf_cons_ne _ (by exact fun hc => hb.2 hc.symm)]
      exact Nat.succ_pos _
    · have hsub : ((uniqueFirst t).filter (fun b => b != a)).Pairwise
          (fun u w => t.indexOf u < t.indexOf w) := ih.sublist (List.filter_sublist _)
      refine List.Pairwise.imp_of_mem ?_ hsub
      intro u w hu hw h
      simp only [List.mem_filter, bne_iff_ne, ne_eq] at hu hw
      rw [List.indexOf_cons_ne _ (by exact fun hc => hu.2 hc.symm),
          List.indexOf_cons_ne _ (by exact fun hc => hw.2 hc.symm)]
      omega

theorem uniqueFirst_toFinset {α : Type} [DecidableEq α] (l : List α) :
    (uniqueFirst l).toFinset = l.toFinset := by
  ext x
  simp [List.mem_toFinset, mem_uniqueFirst]

theorem uniqueFirst_length {α : Type} [DecidableEq α] (l : List α) :
    (uniqueFirst l).length = l.toFinset.card := by
  rw [← uniqueFirst_toFinset, List.toFinset_card_of_nodup (uniqueFirst_nodup l)]

theorem get_ols_x_row_width (x : List ℚ) (order : ℕ) (fitIntercept : Bool) :
    ∀ row ∈ get_ols_x x order fitIntercept, row.length = numCoeffs order fitIntercept := by
  intro row hrow
  simp only [get_ols_x, List.mem_map] at hrow
  obtain ⟨xi, _, rfl⟩ := hrow
  cases fitIntercept <;> simp [numCoeffs, Nat.add_comm]

theorem map_fst_zip_take {α β : Type} :
    ∀ (l1 : List α) (l2 : List β), (l1.zip l2).map Prod.fst = l1.take l2.length := by
  intro l1
  induction l1 with
  | nil => intro l2; simp
  | cons a t ih =>
    intro l2
    cases l2 with
    | nil => simp
    | cons b s => simp [ih]

theorem hueLegend_shape (D : StatsDelegates) (a : ScatterArgs) (addHueLbl : Bool)
    (models : List (PyVal × RegModel)) :
    ∀ ps : List (String × PyVal),
      (hueLegend D a addHueLbl models ps).1.map LegendLabel.hueIdOf
          = ps.map (fun p => some p.2) ∧
      (hueLegend D a addHueLbl models ps).2 = ps.map Prod.fst := by
  intro ps
  induction ps with
  | nil => simp [hueLegend]
  | cons p rest ih =>
    obtain ⟨c, hid⟩ := p
    constructor
    · simp only [hueLegend, List.map_cons]
      rw [ih.1]
      by_cases h1 : 0 < a.order <;> by_cases h2 : addHueLbl = true <;>
        simp [h1, h2, LegendLabel.hueIdOf]
    · simp only [hueLegend, List.map_cons]
      rw [ih.2]

theorem hueLegend_plain_of_order_zero (D : StatsDelegates) (a : ScatterArgs)
    (addHueLbl : Bool) (models : List (PyVal × RegModel)) (ha : a.order = 0) :
    ∀ ps : List (String × PyVal), ∀ l ∈ (hueLegend D a addHueLbl models ps).1,
      l.isHueParams = false := by
  intro ps
  induction ps with
  | nil => intro l hl; simp [hueLegend] at hl
  | cons p rest ih =>
    obtain ⟨c, hid⟩ := p
    intro l hl
    simp only [hueLegend, List.mem_cons] at hl
    rcases hl with rfl | hl
    · simp [ha, LegendLabel.isHueParams]
    · exact ih l hl

theorem mem_of_mem_ite_nil {α : Type} {p : Prop} [Decidable p] {l : List α} {e : α}
    (he : e ∈ if p then l else []) : e ∈ l := by
  split at he
  · exact he
  · simp at he

theorem uniEffects_no_hueCurve (nobs k : ℕ) (c : String) (pr : List ℚ)
    (showPred showCi : Bool) :
    ∀ e ∈ uniEffects nobs k c pr showPred showCi, e.isHueCurve = false := by
  intro e he
  unfold uniEffects at he
  rcases List.mem_cons.mp he with rfl | he2
  · rfl
  rcases List.mem_append.mp he2 with h3 | h3
  · have h4 := mem_of_mem_ite_nil h3
    simp only [List.mem_singleton] at h4
    subst h4
    rfl
  · have h4 := mem_of_mem_ite_nil h3
    rcases List.mem_cons.mp h4 with rfl | h5
    · rfl
    · simp only [List.mem_singleton] at h5
      subst h5
      rfl

theorem universeSection_no_hueCurve (D : StatsDelegates) (df : DataFrame)
    (xcol ycol : String) (a : ScatterArgs) :
    ∀ e ∈ (universeSection D df xcol ycol a).1, e.isHueCurve = false := by
  intro e he
  unfold universeSection at he
  split at he
  · simp at he
  · split at he
    · split at he
      · exact uniEffects_no_hueCurve _ _ _ _ _ _ e he
      · exact uniEffects_no_hueCurve _ _ _ _ _ _ e he
    · simp at he

theorem universeSection_labels_fullSample (D : StatsDelegates) (df : DataFrame)
    (xcol ycol : String) (a : ScatterArgs) :
    ∀ l ∈ (universeSection D df xcol ycol a).2.1, l.isHueParams = false := by
  intro l hl
  unfold universeSection at hl
  split at hl
  · simp at hl
  · split at hl
    · split at hl
      · simp only [List.mem_singleton] at hl
        subst hl
        rfl
      · simp at hl
    · simp at hl

theorem fullScatterEffects_no_hueCurve (a : ScatterArgs) :
    ∀ e ∈ fullScatterEffects a, e.isHueCurve = false := by
  intro e he
  unfold fullScatterEffects at he
  split at he
  · simp at he
  · simp only [List.mem_singleton] at he; subst he; rfl
  · simp only [List.mem_singleton] at he; subst he; rfl

theorem annotRow_no_hueCurve (label : String) (x y : PyVal) (c : String) :
    ∀ e ∈ annotRow label x y c, e.isHueCurve = false := by
  intro e he
  unfold annotRow at he
  by_cases hl : label = "" <;> simp [hl] at he
  · subst he; rfl
  · rcases he with rfl | rfl <;> rfl

theorem annotEffects_no_hueCurve (labels : List String) (xs ys : List PyVal)
    (colorsA : List String) :
    ∀ e ∈ annotEffects labels xs ys colorsA, e.isHueCurve = false := by
  intro e he
  unfold annotEffects at he
  rw [List.mem_flatMap] at he
  obtain ⟨p, _, hp⟩ := he
  exact annotRow_no_hueCurve _ _ _ _ e hp

theorem annotSection_no_hueCurve (df : DataFrame) (xcol ycol : String) (a : ScatterArgs) :
    ∀ e ∈ annotSection df xcol ycol a, e.isHueCurve = false := by
  intro e he
  unfold annotSection at he
  split at he
  · simp at he
  · exact annotEffects_no_hueCurve _ _ _ _ e he

theorem hueLoop_no_curve_of_order_zero (D : StatsDelegates) (df : DataFrame)
    (xcol ycol : String) (a : ScatterArgs) (colorsL : List String) (h : String)
    (ha : a.order = 0) :
    ∀ (ids : List PyVal) (idx : ℕ) (tr : List Effect)
      (res : Except PyError (List (PyVal × RegModel))),
      hueLoop D df xcol ycol a colorsL h ids idx = (tr, res) →
      ∀ e ∈ tr, e.isHueCurve = false := by
  intro ids
  induction ids with
  | nil =>
    intro idx tr res hl e he
    simp only [hueLoop, Prod.mk.injEq] at hl
    rw [← hl.1] at he
    simp at he
  | cons hid rest ih =>
    intro idx tr res hl e he
    simp only [hueLoop] at hl
    split at hl
    · split at hl
      · rename_i tr2 models heq
        simp only [Prod.mk.injEq] at hl
        rw [← hl.1] at he
        simp only [ha, lt_self_iff_false, if_false, List.nil_append, List.mem_cons] at he
        rcases he with rfl | rfl | he
        · rfl
        · rfl
        · exact ih (idx + 1) tr2 _ heq e he
      · rename_i tr2 e0 heq
        simp only [Prod.mk.injEq] at hl
        rw [← hl.1] at he
        simp only [ha, lt_self_iff_false, if_false, List.nil_append, List.mem_cons] at he
        rcases he with rfl | rfl | he
        · rfl
        · rfl
        · exact ih (idx + 1) tr2 _ heq e he
    · simp only [Prod.mk.injEq] at hl
      rw [← hl.1] at he
      simp only [List.mem_singleton] at he
      subst he
      rfl

theorem hueLoop_error_indexError (D : StatsDelegates) (df : DataFrame)
    (xcol ycol : String) (a : ScatterArgs) (colorsL : List String) (h : String) :
    ∀ (ids : List PyVal) (idx : ℕ) (tr : List Effect) (e : PyError),
      hueLoop D df xcol ycol a colorsL h ids idx = (tr, .error e) → e = .indexError := by
  intro ids
  induction ids with
  | nil =>
    intro idx tr e hl
    simp [hueLoop, Prod.mk.injEq] at hl
  | cons hid rest ih =>
    intro idx tr e hl
    simp only [hueLoop] at hl
    split at hl
    · split at hl
      · rename_i tr2 models heq
        simp only [Prod.mk.injEq] at hl
        exact absurd hl.2 (by simp)
      · rename_i tr2 e0 heq
        simp only [Prod.mk.injEq, Except.error.injEq] at hl
        rw [← hl.2]
        exact ih (idx + 1) tr2 e0 heq
    · simp only [Prod.mk.injEq, Except.error.injEq] at hl
      exact hl.2.symm

theorem resolveXColumn_error_msg (df : DataFrame) (xc : Option String)
    (hue : Option String) (e : PyError) (he : resolveXColumn df xc hue = .error e) :
    e = .valueError "x_column is not defined for more than on columns" := by
  unfold resolveXColumn at he
  split at he
  · cases he
  · split at he
    · cases he
    · cases he
      rfl

end Qis

namespace Qis

/-! ## Run-level lemmas -/

theorem figValue_eq (ax : Option ℕ) :
    figValue ax = if ax.isNone then some 0 else none := by
  cases ax <;> rfl

theorem figEffects_no_hueCurve (ax : Option ℕ) :
    ∀ e ∈ figEffects ax, e.isHueCurve = false := by
  intro e he
  cases ax with
  | none => simp only [figEffects, List.mem_singleton] at he; subst he; rfl
  | some k => simp [figEffects] at he

theorem plot_scatter_runFig_cases (D : StatsDelegates) (df0 : DataFrame) (a : ScatterArgs) :
    runFig (plot_scatter D df0 a) = none ∨
    runFig (plot_scatter D df0 a) = some (figValue a.ax) := by
  simp only [plot_scatter]
  repeat' split
  all_goals first
    | (left; rfl)
    | (right; rfl)

theorem plot_classification_runFig_cases (D : StatsDelegates) (df0 : DataFrame)
    (ca : ClassScatterArgs) :
    runFig (plot_classification_scatter D df0 ca) = none ∨
    runFig (plot_classification_scatter D df0 ca) = some (figValue ca.ax) := by
  simp only [plot_classification_scatter]
  repeat' split
  all_goals first
    | (left; rfl)
    | (exact plot_scatter_runFig_cases D _ _)

theorem plot_scatter_trace_no_hueCurve (D : StatsDelegates) (df0 : DataFrame)
    (a : ScatterArgs) (ha : a.order = 0) :
    ∀ e ∈ (plot_scatter D df0 a).1, e.isHueCurve = false := by
  intro e he
  simp only [plot_scatter] at he
  split at he
  · simp at he
  · split at he
    · split at he
      · rename_i tr e0 heq
        rcases List.mem_append.mp he with h1 | h1
        · exact figEffects_no_hueCurve _ e h1
        · exact hueLoop_no_curve_of_order_zero D _ _ _ _ _ _ ha _ 0 tr _ heq e h1
      · rename_i tr models heq
        rcases List.mem_append.mp he with h1 | h1
        · rcases List.mem_append.mp h1 with h2 | h2
          · rcases List.mem_append.mp h2 with h3 | h3
            · rcases List.mem_append.mp h3 with h4 | h4
              · exact figEffects_no_hueCurve _ e h4
              · exact hueLoop_no_curve_of_order_zero D _ _ _ _ _ _ ha _ 0 tr _ heq e h4
            · exact universeSection_no_hueCurve _ _ _ _ _ e h3
          · exact annotSection_no_hueCurve _ _ _ _ e h2
        · simp only [List.mem_singleton] at h1
          subst h1
          rfl
    · rcases List.mem_append.mp he with h1 | h1
      · rcases List.mem_append.mp h1 with h2 | h2
        · rcases List.mem_append.mp h2 with h3 | h3
          · rcases List.mem_append.mp h3 with h4 | h4
            · exact figEffects_no_hueCurve _ e h4
            · exact fullScatterEffects_no_hueCurve _ e h4
          · exact universeSection_no_hueCurve _ _ _ _ _ e h3
        · exact annotSection_no_hueCurve _ _ _ _ e h2
      · simp only [List.mem_singleton] at h1
        subst h1
        rfl

theorem plot_scatter_labels_no_hueParams (D : StatsDelegates) (df0 : DataFrame)
    (a : ScatterArgs) (ha : a.order = 0) (out : ScatterOut)
    (hout : (plot_scatter D df0 a).2 = .ok out) :
    ∀ l ∈ out.legendLabels, l.isHueParams = false := by
  simp only [plot_scatter] at hout
  split at hout
  · simp at hout
  · split at hout
    · split at hout
      · simp at hout
      · rename_i tr models heq
        simp only [Except.ok.injEq] at hout
        subst hout
        intro l hl
        rcases List.mem_append.mp hl with h1 | h1
        · exact universeSection_labels_fullSample _ _ _ _ _ l h1
        · exact hueLegend_plain_of_order_zero _ _ _ _ ha _ l h1
    · simp only [Except.ok.injEq] at hout
      subst hout
      intro l hl
      exact universeSection_labels_fullSample _ _ _ _ _ l hl

/-! ## Heap lemmas for the alias model -/

theorem readRef_append (h : Heap) (l : List DataFrame) (r : ℕ) (hr : r < h.length) :
    readRef (h ++ l) r = readRef h r := by
  unfold readRef
  exact List.getD_append h l _ r hr

theorem readRef_writeRef_ne (h : Heap) (w r : ℕ) (d : DataFrame) (hne : w ≠ r) :
    readRef (writeRef h w d) r = readRef h r := by
  unfold readRef writeRef
  simp [List.getD_eq_getElem?_getD, List.getElem?_set_ne hne]

end Qis

namespace Qis

/-! ## Claim theorems -/

/-- C5 counterexample: for the 3-column table `dfG3` whose group column "g"
comes first, with hue "g" supplied and no explicit x, the source resolves x
to the group column "g" itself (`df.columns[0]`), not to the first non-group
column "a" as the claim states. -/
theorem column_inference_group_first :
    resolveXColumn dfG3 none (some "g") = .ok "g" ∧
    resolveXColumn dfG3 none (some "g") ≠ .ok "a" := by
  constructor
  · decide
  · decide

/-- C5 (amended): with no explicit names, a 2-column table — or a 3-column
table with a hue supplied — resolves x to the first column and y to the
second column positionally; these are the non-group columns only when the
group column is the third. The hue and frame pass through unchanged. -/
theorem column_inference_positional (df : DataFrame) (hue : Option String)
    (xc vn : String)
    (h : df.cols.length = 2 ∨ (df.cols.length = 3 ∧ hue.isSome)) :
    resolveXColumn df none hue = .ok (df.cols.getD 0 "") ∧
    resolveYColumn df none hue xc vn = (df.cols.getD 1 "", hue, df) := by
  constructor
  · simp [resolveXColumn, h]
  · simp [resolveYColumn, h]

/-- Witness for the amended C5 at the concrete 2-column table `dfPair`. -/
theorem column_inference_positional_witness :
    (dfPair.cols.length = 2 ∨ (dfPair.cols.length = 3 ∧ (none : Option String).isSome)) ∧
    (resolveXColumn dfPair none none = .ok (dfPair.cols.getD 0 "") ∧
     resolveYColumn dfPair none none "x" "value_name"
        = (dfPair.cols.getD 1 "", none, dfPair)) :=
  ⟨Or.inl rfl, column_inference_positional dfPair none "x" "value_name" (Or.inl rfl)⟩

/-- C4 counterexample: on a 5-column table with nothing specified the raised
error is the source's built-in `ValueError`, not a dedicated
`AmbiguousColumnsError`. -/
theorem ambiguous_columns_error_is_valueError :
    (plot_scatter Dtest dfWide5 {}).2
        = .error (.valueError "x_column is not defined for more than on columns") ∧
    (plot_scatter Dtest dfWide5 {}).2 ≠ .error .ambiguousColumns := by
  constructor
  · decide
  · decide

/-- C4 (amended): for every 5-column table with no hue and neither x nor y
given, `plot_scatter` raises the built-in `ValueError` (message
"x_column is not defined for more than on columns"), and it does so before
any rendering: the effect trace is empty, so no figure is created and no
drawing call is made. -/
theorem ambiguous_columns_fail_fast (D : StatsDelegates) (df0 : DataFrame)
    (a : ScatterArgs) (hc : df0.cols.length = 5) (hx : a.x_column = none)
    (hy : a.y_column = none) (hh : a.hue = none) :
    plot_scatter D df0 a
      = ([], .error (.valueError "x_column is not defined for more than on columns")) := by
  have hres : resolveXColumn df0.dropna a.x_column a.hue
      = .error (.valueError "x_column is not defined for more than on columns") := by
    rw [hx, hh]
    simp [resolveXColumn, DataFrame.dropna, hc]
  simp only [plot_scatter, hres]

/-- Witness for the amended C4 at the concrete 5-column table `dfWide5`. -/
theorem ambiguous_columns_fail_fast_witness :
    (dfWide5.cols.length = 5 ∧ ({} : ScatterArgs).x_column = none ∧
     ({} : ScatterArgs).y_column = none ∧ ({} : ScatterArgs).hue = none) ∧
    plot_scatter Dtest dfWide5 {}
      = ([], .error (.valueError "x_column is not defined for more than on columns")) :=
  ⟨⟨rfl, rfl, rfl, rfl⟩, ambiguous_columns_fail_fast Dtest dfWide5 {} rfl rfl rfl rfl⟩

/-- C6 counterexample: a grouped render with per-group `order = 0` but the
source's defaults (`full_sample_order = 2`, `add_universe_model_label` on)
still puts a legend entry with regression-parameter text (the pooled
"Full sample" label) in the legend, refuting "the legend contains no
regression-parameter text regardless of the number of groups". -/
theorem order_zero_still_full_sample_params :
    (runLabels (plot_scatter Dtest dfGrouped argsOrderZero)).any
        LegendLabel.hasRegParams = true := by
  decide

/-- C6 (amended): for every dataset rendered with `order = 0`, no per-group
regression curve is drawn (no per-group `regplot` or prediction-line call
appears in the trace), and no group legend entry carries
regression-parameter text; the full-sample overlay is governed separately by
`full_sample_order` and the `add_universe_*` flags and may still contribute
a curve and a parameter label. -/
theorem order_zero_no_group_regression (D : StatsDelegates) (df0 : DataFrame)
    (a : ScatterArgs) (ha : a.order = 0) :
    (∀ e ∈ (plot_scatter D df0 a).1, e.isHueCurve = false) ∧
    (∀ out, (plot_scatter D df0 a).2 = .ok out →
      ∀ l ∈ out.legendLabels, l.isHueParams = false) :=
  ⟨plot_scatter_trace_no_hueCurve D df0 a ha,
   fun out hout => plot_scatter_labels_no_hueParams D df0 a ha out hout⟩

/-- Witness for the amended C6 at the concrete grouped table `dfGrouped`. -/
theorem order_zero_no_group_regression_witness :
    argsOrderZero.order = 0 ∧
    ((∀ e ∈ (plot_scatter Dtest dfGrouped argsOrderZero).1, e.isHueCurve = false) ∧
     (∀ out, (plot_scatter Dtest dfGrouped argsOrderZero).2 = .ok out →
       ∀ l ∈ out.legendLabels, l.isHueParams = false)) :=
  ⟨rfl, order_zero_no_group_regression Dtest dfGrouped argsOrderZero rfl⟩

/-- C7 counterexample: the group "g1" of `dfOneRowGroup` has one row while
the order-2 fit with intercept implies three coefficients; the run completes
without any error — in particular no `InsufficientDataError` — and the trace
shows the undersized group delegated to the OLS solver (fit call with
1 observation and 3 coefficients). -/
theorem undersized_group_delegated_to_solver :
    (plot_scatter Dtest dfOneRowGroup argsUndersized).2 ≠ .error .insufficientData ∧
    runFig (plot_scatter Dtest dfOneRowGroup argsUndersized) ≠ none ∧
    Effect.olsFit (some (PyVal.str "g1")) 1 3
        ∈ (plot_scatter Dtest dfOneRowGroup argsUndersized).1 := by
  refine ⟨by decide, by decide, by decide⟩

/-- C7 (amended): `plot_scatter` performs no insufficient-data check: the
only errors any run can raise are the column-inference `ValueError` and the
palette `IndexError`; a group with fewer rows than coefficients is passed
directly to the delegated least-squares solver (see the counterexample's
trace), and no dedicated `InsufficientDataError` is ever produced. -/
theorem no_insufficient_data_error (D : StatsDelegates) (df0 : DataFrame)
    (a : ScatterArgs) (tr : List Effect) (e : PyError)
    (he : plot_scatter D df0 a = (tr, .error e)) :
    e = .indexError ∨ e = .valueError "x_column is not defined for more than on columns" := by
  simp only [plot_scatter] at he
  split at he
  · rename_i e0 heqx
    simp only [Prod.mk.injEq, Except.error.injEq] at he
    rw [← he.2]
    right
    exact resolveXColumn_error_msg _ _ _ _ heqx
  · split at he
    · split at he
      · rename_i tr2 e0 heq
        simp only [Prod.mk.injEq, Except.error.injEq] at he
        rw [← he.2]
        left
        exact hueLoop_error_indexError D _ _ _ _ _ _ _ _ _ _ heq
      · rename_i tr2 models heq
        simp only [Prod.mk.injEq] at he
        exact absurd he.2 (by simp)
    · simp only [Prod.mk.injEq] at he
      exact absurd he.2 (by simp)

/-- Witness for the amended C7 at a concrete erroring run (the ambiguous
5-column table). -/
theorem no_insufficient_data_error_witness :
    plot_scatter Dtest dfWide5 {}
      = ([], .error (.valueError "x_column is not defined for more than on columns")) ∧
    ((PyError.valueError "x_column is not defined for more than on columns")
        = .indexError ∨
     (PyError.valueError "x_column is not defined for more than on columns")
        = .valueError "x_column is not defined for more than on columns") :=
  ⟨by decide,
   no_insufficient_data_error Dtest dfWide5 {} []
     (.valueError "x_column is not defined for more than on columns") (by decide)⟩

/-- C9: `plot_scatter` returns a freshly created figure object exactly when
no axes is supplied and `None` when drawing onto a caller-supplied axes, and
`plot_classification_scatter` propagates the same behaviour (stated for
every run that completes without raising). -/
theorem returns_figure_iff_no_axes (D D2 : StatsDelegates) (df df2 : DataFrame)
    (a : ScatterArgs) (ca : ClassScatterArgs)
    (h1 : runFig (plot_scatter D df a) ≠ none)
    (h2 : runFig (plot_classification_scatter D2 df2 ca) ≠ none) :
    runFig (plot_scatter D df a) = some (if a.ax.isNone then some 0 else none) ∧
    runFig (plot_classification_scatter D2 df2 ca)
      = some (if ca.ax.isNone then some 0 else none) := by
  constructor
  · rcases plot_scatter_runFig_cases D df a with h | h
    · exact absurd h h1
    · rw [h, figValue_eq]
  · rcases plot_classification_runFig_cases D2 df2 ca with h | h
    · exact absurd h h2
    · rw [h, figValue_eq]

/-- Witness for C9 at concrete completing runs of both entry points. -/
theorem returns_figure_iff_no_axes_witness :
    (runFig (plot_scatter Dtest dfPair {}) ≠ none ∧
     runFig (plot_classification_scatter Dtest dfPair {}) ≠ none) ∧
    (runFig (plot_scatter Dtest dfPair {})
        = some (if ({} : ScatterArgs).ax.isNone then some 0 else none) ∧
     runFig (plot_classification_scatter Dtest dfPair {})
        = some (if ({} : ClassScatterArgs).ax.isNone then some 0 else none)) :=
  ⟨⟨by decide, by decide⟩,
   returns_figure_iff_no_axes Dtest Dtest dfPair dfPair {} {} (by decide) (by decide)⟩

end Qis

namespace Qis

/-- A concrete group column with a repeated value ("a", "b", "a"). -/
def valsW : List PyVal := [PyVal.str "a", PyVal.str "b", PyVal.str "a"]

/-- C3: for every grouped dataset, the group legend entries built by the
source's `zip(colors, hue_ids)` loop over `hue_ids = unique(group column)`
number exactly the distinct group values; the i-th label names the i-th
distinct group value and is paired with the i-th palette color (labels and
colors are parallel); and the distinct values stand in first-occurrence
order of the input column. The palette-length hypothesis is guaranteed in
any completed render, since the earlier scatter loop indexes
`palette[idx]` for every group. -/
theorem grouped_legend_parallel (D : StatsDelegates) (a : ScatterArgs) (addHueLbl : Bool)
    (models : List (PyVal × RegModel)) (vals : List PyVal) (colorsL : List String)
    (hlen : (uniqueFirst vals).length ≤ colorsL.length) :
    (hueLegend D a addHueLbl models (colorsL.zip (uniqueFirst vals))).1.length
        = vals.toFinset.card ∧
    (hueLegend D a addHueLbl models (colorsL.zip (uniqueFirst vals))).1.map
        LegendLabel.hueIdOf = (uniqueFirst vals).map some ∧
    (hueLegend D a addHueLbl models (colorsL.zip (uniqueFirst vals))).2
        = colorsL.take (uniqueFirst vals).length ∧
    (uniqueFirst vals).Nodup ∧
    (∀ v, v ∈ uniqueFirst vals ↔ v ∈ vals) ∧
    (uniqueFirst vals).Pairwise (fun u w => vals.indexOf u < vals.indexOf w) := by
  have hs := hueLegend_shape D a addHueLbl models (colorsL.zip (uniqueFirst vals))
  refine ⟨?_, ?_, ?_, uniqueFirst_nodup vals, fun v => mem_uniqueFirst vals v,
    uniqueFirst_pairwise_indexOf vals⟩
  · have h1 := congrArg List.length hs.1
    simp only [List.length_map, List.length_zip] at h1
    rw [h1, Nat.min_eq_right hlen, uniqueFirst_length]
  · rw [hs.1, show (fun (p : String × PyVal) => some p.2)
        = (some ∘ (Prod.snd : String × PyVal → PyVal)) from rfl,
      ← List.map_map, List.map_snd_zip _ _ hlen]
  · rw [hs.2, map_fst_zip_take]

/-- Witness for C3 at the concrete group column `valsW` and a 2-color
palette. -/
theorem grouped_legend_parallel_witness :
    (uniqueFirst valsW).length ≤ (["c0", "c1"] : List String).length ∧
    ((hueLegend Dtest {} true [] ((["c0", "c1"] : List String).zip
          (uniqueFirst valsW))).1.length = valsW.toFinset.card ∧
     (hueLegend Dtest {} true [] ((["c0", "c1"] : List String).zip
          (uniqueFirst valsW))).1.map LegendLabel.hueIdOf
        = (uniqueFirst valsW).map some ∧
     (hueLegend Dtest {} true [] ((["c0", "c1"] : List String).zip
          (uniqueFirst valsW))).2
        = (["c0", "c1"] : List String).take (uniqueFirst valsW).length ∧
     (uniqueFirst valsW).Nodup ∧
     (∀ v, v ∈ uniqueFirst valsW ↔ v ∈ valsW) ∧
     (uniqueFirst valsW).Pairwise (fun u w => valsW.indexOf u < valsW.indexOf w)) :=
  ⟨by decide, grouped_legend_parallel Dtest {} true [] valsW ["c0", "c1"] (by decide)⟩

/-- C8 counterexample: with a caller-supplied base `markersize` of 30 and one
annotation label, the base scatter is drawn at size 30 while the annotated
point is re-drawn at the hardcoded size 20 — smaller than the base scatter,
refuting "re-drawn at a larger marker size than the base scatter". -/
theorem annotated_point_not_larger_than_base :
    Effect.scatterFull "darkblue" 30 ∈ (plot_scatter Dtest dfPair argsAnnot).1 ∧
    Effect.annotPoint (PyVal.num 1) (PyVal.num 2) "red" 20
        ∈ (plot_scatter Dtest dfPair argsAnnot).1 ∧
    (20 : ℚ) < 30 := by
  refine ⟨by decide, by decide, by decide⟩

/-- C8 (amended): the annotation section emits, per zipped row, one
`ax.annotate` call (a visible text effect exactly when the label is
non-empty) and re-draws the point — at the hardcoded size 20, not at a size
relative to the base scatter — exactly when the label is non-empty. -/
theorem annotation_visible_iff_nonempty (lbls : List String) (xs ys : List PyVal)
    (colorsA : List String) :
    annotEffects lbls xs ys colorsA
      = (zip4 lbls xs ys colorsA).flatMap (fun p => annotRow p.1 p.2.1 p.2.2.1 p.2.2.2) ∧
    ∀ (l : String) (x y : PyVal) (c : String),
      (annotRow l x y c).filter Effect.isVisibleText
          = (if l ≠ "" then [Effect.annotate l x y c] else []) ∧
      (annotRow l x y c).filter Effect.isAnnotPoint
          = (if l ≠ "" then [Effect.annotPoint x y c 20] else []) := by
  refine ⟨rfl, ?_⟩
  intro l x y c
  by_cases hl : l = ""
  · subst hl
    constructor
    · simp [annotRow, Effect.isVisibleText]
    · simp [annotRow, Effect.isAnnotPoint]
  · constructor
    · simp [annotRow, Effect.isVisibleText, Effect.isAnnotPoint, hl]
    · simp [annotRow, Effect.isVisibleText, Effect.isAnnotPoint, hl]

/-- C10: `plot_scatter` leaves the caller's frame object unchanged: in the
alias-aware model of its dataframe statements, the entry `copy()` (line 58)
allocates fresh objects, and every in-place write (the melt rebinding, the
`color` column, the per-group color writes) targets only those fresh
objects, so the caller's heap cell is untouched. -/
theorem caller_frame_unchanged (h0 : Heap) (dfRef : ℕ) (a : ScatterArgs)
    (hr : dfRef < h0.length) :
    readRef (plotScatterFrameOps h0 dfRef a).1 dfRef = readRef h0 dfRef := by
  simp only [plotScatterFrameOps, allocRef]
  repeat' split
  all_goals
    repeat first
      | rw [readRef_writeRef_ne _ _ _ _ (by simp; omega)]
      | rw [readRef_append _ _ _ (by simp; omega)]
      | rw [readRef_append _ _ _ hr]

/-- Witness for C10 at a concrete one-frame heap. -/
theorem caller_frame_unchanged_witness :
    0 < ([dfPair] : Heap).length ∧
    readRef (plotScatterFrameOps [dfPair] 0 {}).1 0 = readRef [dfPair] 0 :=
  ⟨by decide, caller_frame_unchanged [dfPair] 0 {} (by decide)⟩

end Qis

namespace Qis

/-- C1: for every non-empty x, y, y_model of common length n, `calc_ci`
computes the half-width pointwise as
`t * s_err * sqrt(1/n + (x_i - mean(x))^2 / sum_j (x_j - mean(x))^2)` with
`t` the t-distribution quantile at 0.95 with `dof = n - 2` and
`s_err = sqrt(sum((y_i - y_model_i)^2) / dof)`. The degrees of freedom are
`n - 2` unconditionally: `calc_ci` receives no polynomial order (mirroring
the source signature), and the right-hand formula fixes `dof = n - 2`
independent of any fit order. -/
theorem calc_ci_matches_spec_formula (tppf : ℝ → ℤ → ℝ) (x y y_model : List ℝ)
    (n : ℕ) (hx : x.length = n) (hne : 0 < n) (hy : y.length = n)
    (hym : y_model.length = n) :
    calc_ci tppf x y y_model = calc_ci_specFormula tppf x y y_model n := by
  subst hx
  simp only [calc_ci, calc_ci_specFormula, List.map_zipWith]

/-- Witness for C1 at concrete length-3 samples. -/
theorem calc_ci_matches_spec_formula_witness :
    (([(1 : ℝ), 2, 3].length = 3 ∧ 0 < 3) ∧
     ([(2 : ℝ), 4, 5].length = 3 ∧ [(2 : ℝ), 3, 4].length = 3)) ∧
    calc_ci (fun _ _ => 1) [(1 : ℝ), 2, 3] [(2 : ℝ), 4, 5] [(2 : ℝ), 3, 4]
      = calc_ci_specFormula (fun _ _ => 1) [(1 : ℝ), 2, 3] [(2 : ℝ), 4, 5]
          [(2 : ℝ), 3, 4] 3 :=
  ⟨⟨⟨by simp, by norm_num⟩, ⟨by simp, by simp⟩⟩,
   calc_ci_matches_spec_formula (fun _ _ => 1) _ _ _ 3 (by simp) (by norm_num)
     (by simp) (by simp)⟩

/-- Pointwise symmetry of `upper - prediction` and `prediction - lower` for
any band half-widths. -/
theorem band_symm_aux (ym ci : List ℝ) :
    List.zipWith (fun a b => a - b) (ciUpperBand ym ci) ym
      = List.zipWith (fun a b => a - b) ym (ciLowerBand ym ci) := by
  unfold ciUpperBand ciLowerBand
  induction ym generalizing ci with
  | nil => simp
  | cons a t ih =>
    cases ci with
    | nil => simp
    | cons c cs =>
      simp only [List.zipWith]
      rw [ih]
      congr 1
      ring

/-- C2: the full-sample confidence band is symmetric about the prediction
curve: every half-width produced by `calc_ci` is non-negative (given that
the delegated t-quantile at 0.95 is non-negative, which holds for
`scipy.stats.t.ppf` whenever `dof > 0` since 0.95 > 0.5), and pointwise
`upper - prediction = prediction - lower` for the bands
`upper = y_model + ci` and `lower = y_model - ci` of source lines 145-146. -/
theorem ci_band_symmetric (tppf : ℝ → ℤ → ℝ) (x y y_model : List ℝ)
    (ht : 0 ≤ tppf 0.95 ((x.length : ℤ) - 2)) :
    (∀ c ∈ calc_ci tppf x y y_model, 0 ≤ c) ∧
    List.zipWith (fun a b => a - b)
        (ciUpperBand y_model (calc_ci tppf x y y_model)) y_model
      = List.zipWith (fun a b => a - b) y_model
          (ciLowerBand y_model (calc_ci tppf x y y_model)) := by
  constructor
  · intro c hc
    simp only [calc_ci, List.mem_map] at hc
    obtain ⟨xi, _, rfl⟩ := hc
    exact mul_nonneg (mul_nonneg ht (Real.sqrt_nonneg _)) (Real.sqrt_nonneg _)
  · exact band_symm_aux y_model (calc_ci tppf x y y_model)

/-- Witness for C2 at concrete length-3 samples and a non-negative quantile
delegate. -/
theorem ci_band_symmetric_witness :
    (0 : ℝ) ≤ (fun (_ : ℝ) (_ : ℤ) => (1 : ℝ)) 0.95 (([(1 : ℝ), 2, 3].length : ℤ) - 2) ∧
    ((∀ c ∈ calc_ci (fun _ _ => 1) [(1 : ℝ), 2, 3] [(2 : ℝ), 4, 5] [(2 : ℝ), 3, 4],
        0 ≤ c) ∧
     List.zipWith (fun a b => a - b)
         (ciUpperBand [(2 : ℝ), 3, 4]
           (calc_ci (fun _ _ => 1) [(1 : ℝ), 2, 3] [(2 : ℝ), 4, 5] [(2 : ℝ), 3, 4]))
         [(2 : ℝ), 3, 4]
       = List.zipWith (fun a b => a - b) [(2 : ℝ), 3, 4]
           (ciLowerBand [(2 : ℝ), 3, 4]
             (calc_ci (fun _ _ => 1) [(1 : ℝ), 2, 3] [(2 : ℝ), 4, 5] [(2 : ℝ), 3, 4]))) :=
  ⟨by norm_num,
   ci_band_symmetric (fun _ _ => 1) [(1 : ℝ), 2, 3] [(2 : ℝ), 4, 5] [(2 : ℝ), 3, 4]
     (by norm_num)⟩

end Qis
